import Mathlib

/-!
Shallow embedding of `raredoor/models.py` (repository trouvaay/RD2.0).

The module is a Django 1.x model (schema) file.  Its only executable code is
`TimestampedModel.save` and the stub `generate_order_number`; everything else
is declarative field definitions.  Where a claim depends on framework or
language behaviour (Python keyword-argument binding, Django's `Field.__init__`
signature, the default `Model.save` doing no cross-field validation, attribute
lookup on model instances), that behaviour is embedded explicitly and
documented at the definition.

Conventions: `DateTimeField` values are `Int` (an abstract instant),
`DecimalField` and `FloatField` values are `Rat`, primary keys are `Nat`
(wrapped in `Option` where the key may be unset), foreign keys are `Nat`
surrogates, and `ManyToManyField`s are `List Nat`.
-/

/-- Errors the embedded Python/Django semantics can raise: attribute lookup
failure, a call with a bad argument list, and a database constraint
violation. -/
inductive PyError where
  | attributeError
  | typeError
  | integrityError
deriving DecidableEq

/-- Python truthiness of an optional integer primary key: `None` and `0` are
falsy, any other value is truthy.  `TimestampedModel.save` (models.py line 31)
branches on `if(not self.id)`. -/
def pyFalsy : Option Nat → Bool
  | none => true
  | some n => n == 0

/-- A record of a concrete subclass of `TimestampedModel` that carries an
`id` attribute (e.g. `OrderItem`, `Offer`, or via `UUIDModel` `PostalAddress`
and `Product`).  `fields` holds the subclass's own columns, so that frame
properties of `save` can be stated uniformly. -/
structure TSRecord (α : Type) where
  id : Option Nat
  created_at : Int
  updated_at : Int
  fields : α
deriving DecidableEq

/-- Embedding of `TimestampedModel.save` (models.py lines 27-34): read the
clock once (`right_now`), set `created_at` only when `self.id` is falsy, always
set `updated_at`, then delegate to the framework's save, which inserts the row
and assigns the primary key (`dbId`, nonzero in a real database) when it was
unset. -/
def timestamped_save {α : Type} (r : TSRecord α) (right_now : Int) (dbId : Nat) :
    TSRecord α :=
  let r1 := if pyFalsy r.id then { r with created_at := right_now } else r
  let r2 := { r1 with updated_at := right_now }
  if pyFalsy r2.id then { r2 with id := some dbId } else r2

/-- A sequence of further `save()` calls, each with its clock reading and the
primary key the database would assign were the row still unsaved. -/
def saveSeq {α : Type} (r : TSRecord α) : List (Int × Nat) → TSRecord α
  | [] => r
  | (t, i) :: rest => saveSeq (timestamped_save r t i) rest

/-- An `Order` row (models.py lines 201-208).  `Order` declares
`order_number` as its primary key, so — unlike every other concrete model
here — the framework adds no `id` column and the instance has no `id`
attribute. -/
structure OrderRecord where
  order_number : String
  user : Nat
  order_type : String
  address : Nat
  subtotal : Rat
  taxes : Rat
  total_transaction_price : Rat
  created_at : Int
  updated_at : Int
deriving DecidableEq

/-- Embedding of `generate_order_number` (models.py lines 191-199): the body
is `pass`, so the call performs no computation and returns Python `None`. -/
def generate_order_number (order : OrderRecord) : Option String := none

/-- Column names `Order` declares itself (models.py lines 202-208). -/
def orderFieldNames : List String :=
  ["order_number", "user", "order_type", "address", "subtotal", "taxes",
   "total_transaction_price"]

/-- Columns inherited from the abstract `TimestampedModel` (lines 24-25). -/
def timestampedFieldNames : List String :=
  ["created_at", "updated_at"]

/-- Attribute names of an `Order` instance: its own columns plus the inherited
timestamps.  Because `order_number` is declared `primary_key=True`, the
framework does not add an automatic `id` column. -/
def orderAttrNames : List String :=
  timestampedFieldNames ++ orderFieldNames

/-- Column names of `OrderItem` (models.py lines 211-215) plus the inherited
timestamps; this is where the product linkage of an order lives. -/
def orderItemFieldNames : List String :=
  timestampedFieldNames ++ ["order", "quantity", "product", "original_price"]

/-- Whether an `Order` instance has an `id` attribute, read off the declared
schema. -/
def orderHasIdAttr : Bool := orderAttrNames.contains "id"

/-- Calling the inherited `TimestampedModel.save` on an `Order`: the body's
first step reads `self.id` (line 31).  When the instance has no `id` attribute
the lookup raises `AttributeError`; otherwise the timestamp logic would run.
For `Order` as declared the first branch is never taken. -/
def order_save (o : OrderRecord) (right_now : Int) : Except PyError OrderRecord :=
  if orderHasIdAttr then
    .ok { o with updated_at := right_now }
  else
    .error .attributeError

/-- A `Discount` row (models.py lines 152-187), fields in source order.
`Discount` extends `models.Model` directly (no mixins) and defines no methods
— in particular no `save()` override and no validity-evaluation function. -/
structure Discount where
  name : String
  short_terms : String
  terms : String
  discount_type : String
  retailer : Option Nat
  is_active : Bool
  start_time : Option Int
  end_time : Option Int
  uses_per_user : Int
  uses_total : Int
  code : String
  fixed_amount_off : Option Rat
  fixed_amount_off_minimum_order : Option Rat
  percent_off : Option Rat
  percent_off_limit : Option Rat
deriving DecidableEq

/-- Persisting a `Discount`: the class defines no `save()` override, so the
framework's default `Model.save` runs, which performs no cross-field
validation and rejects nothing. -/
def discount_save (d : Discount) : Except PyError Discount := .ok d

/-- Projections of the `Discount` columns declared `unique=True` in the
schema: there are none (in particular `code`, line 179, is declared without
`unique`; the comment at lines 173-178 defers uniqueness to a `save` method
that was never written). -/
def discountUniqueProjections : List (Discount → String) := []

/-- Inserting a `Discount` row: the default save rejects nothing, and the
database enforces only the unique constraints the schema declares — of which
`Discount` has none. -/
def insertDiscount (table : List Discount) (d : Discount) :
    Except PyError (List Discount) :=
  if discountUniqueProjections.any (fun proj => table.any (fun e => proj e == proj d)) then
    .error .integrityError
  else
    .ok (table ++ [d])

/-- Options a `CharField` declaration can carry, as far as the claims need. -/
structure CharFieldOptions where
  max_length : Option Nat
  unique : Bool
  blank : Bool
  default : String
  db_index : Bool
deriving DecidableEq

/-- The declared options of `Discount.code` (models.py line 179): `unique` is
not passed, and the framework's `Field` default is `unique=False`. -/
def discount_code_options : CharFieldOptions :=
  { max_length := some 100, unique := false, blank := true, default := "",
    db_index := true }

/-- A discount with both value fields set, violating the mutual exclusivity
the comment at lines 181-183 promises to enforce in a `save()` method. -/
def dBothSet : Discount :=
  { name := "Get 20 dollars and 10 percent off", short_terms := "", terms := "",
    discount_type := "GENERAL", retailer := none, is_active := true,
    start_time := none, end_time := none, uses_per_user := 1, uses_total := -1,
    code := "", fixed_amount_off := some 20,
    fixed_amount_off_minimum_order := none, percent_off := some 10,
    percent_off_limit := none }

/-- A discount with neither value field set. -/
def dNeitherSet : Discount :=
  { dBothSet with
    name := "No value fields", fixed_amount_off := none,
    percent_off := none }

/-- A discount with code `PROMO2015` (the help-text's own example, line 179). -/
def dCodeUpper : Discount :=
  { dNeitherSet with
    name := "Upper-case code", code := "PROMO2015",
    fixed_amount_off := some 10 }

/-- The same discount with code `Promo2015`, differing only in letter case. -/
def dCodeLower : Discount :=
  { dCodeUpper with name := "Lower-case code", code := "Promo2015" }

/-- The columns of `Product` (models.py lines 277-336) beyond the mixin
columns (`id` from `UUIDModel`, timestamps from `TimestampedModel`), in source
order. -/
structure ProductFields where
  manufacturer : Option String
  manufacturer_sku : Option String
  upc : Option String
  short_name : String
  slug : String
  original_price : Rat
  current_price : Rat
  description : Option String
  store : Nat
  units : Int
  url : Option String
  minimum_offer_price : Option Rat
  shipping_width : Option Rat
  shipping_depth : Option Rat
  shipping_height : Option Rat
  width : Option Rat
  depth : Option Rat
  height : Option Rat
  seat_height : Option Rat
  diameter : Option Rat
  bed_size : Option String
  weight : Option Rat
  color : List Nat
  color_description : Option String
  material : List Nat
  material_description : Option String
  tags : Option String
  is_custom : Bool
  is_floor_model : Bool
  segment : List Nat
  style : List Nat
  furnituretype : List Nat
  category : List Nat
  subcategory : List Nat
  added_date : Int
  pub_date : Option Int
  is_sold : Bool
  is_reserved : Bool
  is_published : Bool
  is_featured : Bool
  is_recent : Bool
  hours_left : Option Int
  is_landing : Bool
  lat : Option Rat
  lng : Option Rat
  md5_order : Option String
  click_count : Int
  display_score : Int
  the_hunt : Bool
deriving DecidableEq

/-- Instantiating a `Product` giving only the columns that have no declared
default (`short_name`, `slug`, `store`; `added_date` is `auto_now_add`, set by
the framework at insert): every other column takes the default its declaration
states.  `hours_left` (line 329) defaults to `settings.SHELF_LIFE`; the
settings module is outside this source file, so the constant is a parameter
here. -/
def productNew (SHELF_LIFE : Int) (short_name slug : String) (store : Nat)
    (added_date : Int) : ProductFields :=
  { manufacturer := none, manufacturer_sku := none, upc := none,
    short_name := short_name, slug := slug,
    original_price := 0, current_price := 0, description := none,
    store := store, units := 1, url := none, minimum_offer_price := none,
    shipping_width := none, shipping_depth := none, shipping_height := none,
    width := none, depth := none, height := none, seat_height := none,
    diameter := none, bed_size := none, weight := none,
    color := [], color_description := none,
    material := [], material_description := none, tags := none,
    is_custom := false, is_floor_model := false,
    segment := [], style := [], furnituretype := [], category := [],
    subcategory := [],
    added_date := added_date, pub_date := none,
    is_sold := false, is_reserved := false, is_published := false,
    is_featured := false, is_recent := true,
    hours_left := some SHELF_LIFE, is_landing := false,
    lat := none, lng := none, md5_order := none,
    click_count := 0, display_score := 0, the_hunt := false }

/-- A persisted `Product` is a timestamped record over `ProductFields`; the
only operation in the module that mutates one is the inherited
`TimestampedModel.save`. -/
def product_save (p : TSRecord ProductFields) (right_now : Int) (dbId : Nat) :
    TSRecord ProductFields :=
  timestamped_save p right_now dbId

/-- The entire executable surface of the module in one function: the module
defines exactly two functions, `TimestampedModel.save` (here over an arbitrary
payload, and specialised to `Order` as `order_save`) and
`generate_order_number`.  A `Discount` is passed in so that independence of
the module's behaviour from every `Discount` field can be stated. -/
def moduleRun (α : Type) (d : Discount) (o : OrderRecord) (r : TSRecord α)
    (right_now : Int) (dbId : Nat) :
    Option String × TSRecord α × Except PyError OrderRecord :=
  (generate_order_number o, timestamped_save r right_now dbId,
   order_save o right_now)

/-- Keyword parameters of Django 1.x `Field.__init__`.  The signature has no
catch-all `**kwargs`, so Python raises `TypeError` when a call passes a
keyword outside this list. -/
def fieldInitKeywords : List String :=
  ["verbose_name", "name", "primary_key", "max_length", "unique", "blank",
   "null", "db_index", "rel", "default", "editable", "serialize",
   "unique_for_date", "unique_for_month", "unique_for_year", "choices",
   "help_text", "db_column", "db_tablespace", "auto_created", "validators",
   "error_messages"]

/-- Python keyword-argument binding for a call into a signature without
`**kwargs`: a keyword outside the accepted list raises `TypeError`. -/
def bindKwargs (accepted : List String) (given : List String) :
    Except PyError Unit :=
  if given.all (fun k => accepted.contains k) then .ok () else .error .typeError

/-- `DecimalField.__init__` adds `max_digits` and `decimal_places`. -/
def decimalFieldKeywords : List String :=
  fieldInitKeywords ++ ["max_digits", "decimal_places"]

/-- `CharField` forwards its keywords unchanged to `Field.__init__`. -/
def charFieldKeywords : List String := fieldInitKeywords

/-- `TextField` forwards its keywords unchanged to `Field.__init__`. -/
def textFieldKeywords : List String := fieldInitKeywords

/-- Keywords a `ForeignKey` declaration accepts beyond the base field ones
(relation options handled by the related-field constructors). -/
def foreignKeyKeywords : List String :=
  fieldInitKeywords ++
  ["to_field", "rel_class", "db_constraint", "related_name",
   "related_query_name", "limit_choices_to", "on_delete"]

/-- `ForeignKey.__init__(self, to, ...)`: the target model `to` is a required
positional parameter; omitting it raises `TypeError` before any keyword is
considered. -/
def foreignKeyInit (toProvided : Bool) (kwargs : List String) :
    Except PyError Unit :=
  if toProvided then bindKwargs foreignKeyKeywords kwargs
  else .error .typeError

/-- Evaluating `Profile.account_balance` (models.py line 117):
`models.DecimalField(help_text=...)` — only a recognised keyword, so the
constructor call itself succeeds. -/
def profile_account_balance_decl : Except PyError Unit :=
  bindKwargs decimalFieldKeywords ["help_text"]

/-- Evaluating `Profile.shipping_address` (models.py line 118):
`models.ForeignKey(blank=True, null=True, default=True)` — the required
positional target model is missing. -/
def profile_shipping_address_decl : Except PyError Unit :=
  foreignKeyInit false ["blank", "null", "default"]

/-- Evaluating `Discount.short_terms` (models.py line 155):
`models.TextField(max_length=1000, blank=True, null=False, defult='',
help_text=...)` — note the misspelt keyword `defult`. -/
def discount_short_terms_decl : Except PyError Unit :=
  bindKwargs textFieldKeywords
    ["max_length", "blank", "null", "defult", "help_text"]

/-- Evaluating `Order.order_number` (models.py line 202):
`models.CharField(primary_key=True, max_lendth=20, blank=False, null=False,
default=generate_order_number, editable=False)` — note the misspelt keyword
`max_lendth`. -/
def order_order_number_decl : Except PyError Unit :=
  bindKwargs charFieldKeywords
    ["primary_key", "max_lendth", "blank", "null", "default", "editable"]

/-- Helper: `save` on a record whose `id` is already set (truthy) only
rewrites `updated_at`; `created_at`, `id` and every payload field are
untouched, and the delegated framework save assigns no key. -/
theorem save_of_nonfalsy {α : Type} (r : TSRecord α) (t : Int) (i : Nat)
    (h : pyFalsy r.id = false) :
    timestamped_save r t i = { r with updated_at := t } := by
  unfold timestamped_save
  simp [h]

/-- Helper: `save` on a record whose `id` is falsy sets both timestamps to the
single clock reading and lets the framework assign the primary key. -/
theorem save_of_falsy {α : Type} (r : TSRecord α) (t : Int) (i : Nat)
    (h : pyFalsy r.id = true) :
    timestamped_save r t i = ⟨some i, t, t, r.fields⟩ := by
  unfold timestamped_save
  simp [h]

/-- Helper: no `save` call ever changes the payload columns. -/
theorem save_fields_frame {α : Type} (r : TSRecord α) (t : Int) (i : Nat) :
    (timestamped_save r t i).fields = r.fields := by
  cases h : pyFalsy r.id
  · rw [save_of_nonfalsy r t i h]
  · rw [save_of_falsy r t i h]

/-- Helper: a monotone sequence of further saves of a persisted record
(truthy `id`, `created_at` at most `updated_at`, `updated_at` at most the
next clock reading) keeps `created_at` fixed and at most `updated_at`. -/
theorem saveSeq_keeps_created_at {α : Type} :
    ∀ (steps : List (Int × Nat)) (r : TSRecord α) (tp : Int),
      pyFalsy r.id = false → r.updated_at ≤ tp →
      r.created_at ≤ r.updated_at →
      List.Chain (· ≤ ·) tp (steps.map Prod.fst) →
      (saveSeq r steps).created_at = r.created_at ∧
      (saveSeq r steps).created_at ≤ (saveSeq r steps).updated_at
  | [], _, _, _, _, hc, _ => ⟨rfl, hc⟩
  | (t, i) :: rest, r, tp, hid, hup, hc, hmono => by
      cases hmono with
      | cons hle hchain =>
        have hr : timestamped_save r t i = { r with updated_at := t } :=
          save_of_nonfalsy r t i hid
        have hstep : saveSeq r ((t, i) :: rest) =
            saveSeq { r with updated_at := t } rest :=
          congrArg (fun x => saveSeq x rest) hr
        rw [hstep]
        exact saveSeq_keeps_created_at rest { r with updated_at := t } t hid
          (le_refl t) (le_trans (le_trans hc hup) hle) hchain

/-- C1: `generate_order_number` is a no-op stub: applied to any order it
performs no computation and returns `none` (Python `None`), producing no
order-number string of the documented format. -/
theorem c1_generate_order_number_is_noop_stub :
    ∀ o : OrderRecord, generate_order_number o = none :=
  fun _ => rfl

/-- C2: no operation in the source evaluates discount applicability: the
module's entire executable surface behaves identically for any two `Discount`
records (so no function reads `is_active`, `start_time`, `end_time`,
`uses_per_user` or `uses_total` to reach a decision), and the framework's
default save accepts every `Discount` — active or not, expired or not —
unchanged. -/
theorem c2_no_discount_validity_evaluation :
    (∀ (α : Type) (d d' : Discount) (o : OrderRecord) (r : TSRecord α)
        (t : Int) (i : Nat), moduleRun α d o r t i = moduleRun α d' o r t i) ∧
    (∀ d : Discount, discount_save d = Except.ok d) :=
  ⟨fun _ _ _ _ _ _ _ => rfl, fun _ => rfl⟩

/-- C3 (code bug, evaluated at the failing inputs): evaluating the cited
declarations is not error-free.  `Profile.account_balance` constructs, but
`Profile.shipping_address` (ForeignKey without its required target),
`Discount.short_terms` (misspelt keyword `defult`) and `Order.order_number`
(misspelt keyword `max_lendth`) each raise `TypeError`, so importing the
module fails. -/
theorem c3_model_declaration_evaluation :
    profile_account_balance_decl = Except.ok () ∧
    profile_shipping_address_decl = Except.error PyError.typeError ∧
    discount_short_terms_decl = Except.error PyError.typeError ∧
    order_order_number_decl = Except.error PyError.typeError :=
  ⟨rfl, rfl, rfl, rfl⟩

/-- C4: `Order` declares no direct product reference — `product` is not among
its attributes — while the product linkage lives on `OrderItem.product`, so
the attribute path `order.product.retailer.order_prefix` fails at its first
step. -/
theorem c4_order_has_no_product_reference :
    "product" ∉ orderFieldNames ∧ "product" ∉ orderAttrNames ∧
    "product" ∈ orderItemFieldNames := by
  decide

/-- C5: mutual exclusivity of the discount value fields is unenforced: a
`Discount` with both `fixed_amount_off` and `percent_off` set, and one with
neither set, are both accepted unchanged by the (default) save and by an
insert against the declared constraints. -/
theorem c5_discount_value_exclusivity_unenforced :
    dBothSet.fixed_amount_off = some 20 ∧ dBothSet.percent_off = some 10 ∧
    discount_save dBothSet = Except.ok dBothSet ∧
    insertDiscount [] dBothSet = Except.ok [dBothSet] ∧
    dNeitherSet.fixed_amount_off = none ∧ dNeitherSet.percent_off = none ∧
    discount_save dNeitherSet = Except.ok dNeitherSet ∧
    insertDiscount [] dNeitherSet = Except.ok [dNeitherSet] :=
  ⟨rfl, rfl, rfl, rfl, rfl, rfl, rfl, rfl⟩

/-- C6: case-insensitive uniqueness of discount codes is unenforced: `code`
carries no unique constraint, and two records whose codes differ only in
letter case are both inserted successfully. -/
theorem c6_discount_code_case_uniqueness_unenforced :
    dCodeUpper.code = "PROMO2015" ∧ dCodeLower.code = "Promo2015" ∧
    dCodeUpper.code ≠ dCodeLower.code ∧
    dCodeUpper.code.data.map Char.toLower = dCodeLower.code.data.map Char.toLower ∧
    discount_code_options.unique = false ∧
    insertDiscount [] dCodeUpper = Except.ok [dCodeUpper] ∧
    insertDiscount [dCodeUpper] dCodeLower =
      Except.ok [dCodeUpper, dCodeLower] :=
  ⟨rfl, rfl, by decide, by decide, rfl, rfl, rfl⟩

/-- C7 (counterexample): contrary to the claim that some operation in the
source decreases `hours_left` over time, there is no product, clock reading
and key for which the inherited save — the only operation in the module that
touches a `Product` — changes `hours_left` at all. -/
theorem c7_no_operation_decreases_hours_left :
    ¬ ∃ (p : TSRecord ProductFields) (t : Int) (i : Nat),
        (product_save p t i).fields.hours_left ≠ p.fields.hours_left := by
  rintro ⟨p, t, i, h⟩
  exact h (congrArg ProductFields.hours_left (save_fields_frame p t i))

/-- C7 (amended): `hours_left` is initialized to `settings.SHELF_LIFE` (its
declared default), but no operation in the source decreases or otherwise
modifies it — the shelf-life decay is not implemented in this module. -/
theorem c7_hours_left_default_and_never_modified :
    (∀ (SHELF_LIFE : Int) (sn sl : String) (store : Nat) (ad : Int),
        (productNew SHELF_LIFE sn sl store ad).hours_left = some SHELF_LIFE) ∧
    (∀ (p : TSRecord ProductFields) (t : Int) (i : Nat),
        (product_save p t i).fields.hours_left = p.fields.hours_left) :=
  ⟨fun _ _ _ _ _ => rfl,
   fun p t i => congrArg ProductFields.hours_left (save_fields_frame p t i)⟩

/-- C8: saving a record whose `id` is already set (non-falsy) leaves
`created_at`, `id` and every payload column unchanged and sets exactly
`updated_at` to the current clock reading before delegating to the framework
save. -/
theorem c8_save_existing_record_only_touches_updated_at {α : Type}
    (r : TSRecord α) (t : Int) (i : Nat) (h : pyFalsy r.id = false) :
    timestamped_save r t i = { r with updated_at := t } :=
  save_of_nonfalsy r t i h

/-- Witness for C8 at a concrete persisted record. -/
theorem c8_witness :
    pyFalsy (some 7 : Option Nat) = false ∧
    timestamped_save (TSRecord.mk (some 7) 100 150 ()) 200 3 =
      TSRecord.mk (some 7) 100 200 () :=
  ⟨by decide,
   c8_save_existing_record_only_touches_updated_at
     (TSRecord.mk (some 7) 100 150 ()) 200 3 (by decide)⟩

/-- C9: the first save of an unsaved record (falsy `id`) writes both
timestamps from the single clock reading, so `created_at = updated_at`; the
framework then assigns a nonzero key, later saves never touch `created_at`,
and under a monotone clock `created_at ≤ updated_at` holds after every
subsequent save. -/
theorem c9_created_at_le_updated_at (α : Type) (r : TSRecord α) (t0 : Int)
    (i0 : Nat) (steps : List (Int × Nat)) (hfalsy : pyFalsy r.id = true)
    (hkey : i0 ≠ 0) (hmono : List.Chain (· ≤ ·) t0 (steps.map Prod.fst)) :
    (timestamped_save r t0 i0).created_at = t0 ∧
    (timestamped_save r t0 i0).updated_at = t0 ∧
    (saveSeq (timestamped_save r t0 i0) steps).created_at = t0 ∧
    (saveSeq (timestamped_save r t0 i0) steps).created_at ≤
      (saveSeq (timestamped_save r t0 i0) steps).updated_at := by
  have h1 : timestamped_save r t0 i0 = ⟨some i0, t0, t0, r.fields⟩ :=
    save_of_falsy r t0 i0 hfalsy
  have hid' : pyFalsy (timestamped_save r t0 i0).id = false := by
    rw [h1]
    simpa [pyFalsy] using hkey
  have hframe := saveSeq_keeps_created_at steps (timestamped_save r t0 i0) t0
    hid' (by rw [h1]) (by rw [h1]) hmono
  refine ⟨by rw [h1], by rw [h1], ?_, hframe.2⟩
  rw [hframe.1, h1]

/-- Witness for C9 at a concrete unsaved record and monotone clock. -/
theorem c9_witness :
    pyFalsy (none : Option Nat) = true ∧ (3 : Nat) ≠ 0 ∧
    List.Chain (· ≤ ·) (10 : Int) [11, 20] ∧
    ((timestamped_save (TSRecord.mk none 0 0 ()) 10 3).created_at = 10 ∧
     (timestamped_save (TSRecord.mk none 0 0 ()) 10 3).updated_at = 10 ∧
     (saveSeq (timestamped_save (TSRecord.mk none 0 0 ()) 10 3)
        [(11, 4), (20, 9)]).created_at = 10 ∧
     (saveSeq (timestamped_save (TSRecord.mk none 0 0 ()) 10 3)
        [(11, 4), (20, 9)]).created_at ≤
       (saveSeq (timestamped_save (TSRecord.mk none 0 0 ()) 10 3)
          [(11, 4), (20, 9)]).updated_at) :=
  have hchain : List.Chain (· ≤ ·) (10 : Int) [11, 20] :=
    List.Chain.cons (by decide) (List.Chain.cons (by decide) List.Chain.nil)
  ⟨by decide, by decide, hchain,
   c9_created_at_le_updated_at Unit (TSRecord.mk none 0 0 ()) 10 3
     [(11, 4), (20, 9)] (by decide) (by decide) hchain⟩

/-- C10: `Order`'s primary key is `order_number` and the class declares no
`id` column, so the inherited `TimestampedModel.save`'s unconditional read of
`self.id` raises `AttributeError` on every `Order` instance. -/
theorem c10_order_save_raises_attribute_failure :
    orderHasIdAttr = false ∧
    ∀ (o : OrderRecord) (t : Int),
      order_save o t = Except.error PyError.attributeError :=
  ⟨by decide, fun _ _ => rfl⟩
